import Mathlib

/-!
Verification of the NanoBananaStudio client-side state and persistence core.

The definitions below are a shallow embedding of the repository's code:
the IndexedDB history helpers and the main studio controller
(components, `TextGenerator`), the Gemini service wrappers
(`services/geminiService.ts`), and the node-graph pipeline evaluator
(`WorkflowEditor`).  Stateful React code is embedded as explicit state
passing on a state structure; asynchronous operations are split at their
await points into a synchronous prefix (which may emit a request) and a
success/failure continuation.  JavaScript strings are Lean `String`s,
`Date.now()` is an explicit `Nat` parameter, and dispatched network calls
are reified as request values instead of being performed.
-/

namespace NanoBanana

/-- Record stored in the history list (`types.GeneratedImage`):
`{ url, prompt, timestamp }` with `timestamp` in millisecond epoch time. -/
structure GeneratedImage where
  url : String
  prompt : String
  timestamp : Nat
deriving DecidableEq

/-- Staged reference image (`UploadedImage` in `TextGenerator`):
the compressed data URL together with a human-readable size label. -/
structure UploadedImage where
  url : String
  size : String
deriving DecidableEq

/-! ## Durable history store: legacy migration (`getHistoryFromDB`) -/

/-- Dynamic value as read back from IndexedDB.  A stored history entry is
either a bare string (legacy schema: just the data URL) or a structured
record `{ url, prompt, timestamp }`.  The `url` field of a record is itself
a dynamic value: the migration in the source wraps whatever element it sees
(`result.map((url) => ({ url, prompt: 'Legacy Image', timestamp: Date.now() }))`),
so for a bare string element the wrapped `url` is that string. -/
inductive JVal
  | s (v : String)
  | obj (url : JVal) (prompt : String) (timestamp : Nat)
deriving DecidableEq

/-- Structural check `typeof result[0] === 'string'` applied to one element. -/
def isStrVal : JVal → Bool
  | .s _ => true
  | .obj _ _ _ => false

/-- One step of the legacy migration: `{ url, prompt: 'Legacy Image',
timestamp: Date.now() }` built from the element `url`.  `Date.now()` is
modelled by the single load-time value `now`. -/
def legacyWrap (now : Nat) (v : JVal) : JVal :=
  JVal.obj v "Legacy Image" now

/-- Migration branch of `getHistoryFromDB`: if the stored value is a
non-empty array whose first element is a bare string, every element is
wrapped by `legacyWrap`; otherwise the stored value is returned unchanged. -/
def migrateHistory (now : Nat) (stored : List JVal) : List JVal :=
  match stored with
  | [] => []
  | v :: rest =>
      if isStrVal v then (v :: rest).map (legacyWrap now) else v :: rest

/-- Claim C4: the history-load migration turns a non-empty list of `k` bare
strings into `k` structured records with prompt `"Legacy Image"` and the
original string as url; a list whose first element is already a structured
record is returned unchanged; and the migration is idempotent. -/
theorem migration_legacy_and_idempotent :
    (∀ (urls : List String) (now : Nat), 0 < urls.length →
        migrateHistory now (urls.map JVal.s)
          = urls.map (fun u => JVal.obj (JVal.s u) "Legacy Image" now))
    ∧ (∀ (g : JVal) (p : String) (t : Nat) (rest : List JVal) (now : Nat),
        migrateHistory now (JVal.obj g p t :: rest) = JVal.obj g p t :: rest)
    ∧ (∀ (l : List JVal) (n1 n2 : Nat),
        migrateHistory n2 (migrateHistory n1 l) = migrateHistory n1 l) := by
  refine ⟨?_, ?_, ?_⟩
  · intro urls now _
    cases urls with
    | nil => rfl
    | cons u us => simp [migrateHistory, isStrVal, legacyWrap]
  · intro g p t rest now
    simp [migrateHistory, isStrVal]
  · intro l n1 n2
    cases l with
    | nil => rfl
    | cons v rest =>
        cases v with
        | s str => simp [migrateHistory, isStrVal, legacyWrap]
        | obj u p t => simp [migrateHistory, isStrVal]

/-- Witness for C4 at a concrete legacy value of length 2. -/
theorem migration_legacy_and_idempotent_witness :
    migrateHistory 7 (["a", "b"].map JVal.s)
      = [JVal.obj (JVal.s "a") "Legacy Image" 7,
         JVal.obj (JVal.s "b") "Legacy Image" 7] := by
  have h := migration_legacy_and_idempotent.1 ["a", "b"] 7 (by decide)
  simpa using h

/-! ## Generation request client (`services/geminiService.ts`) -/

/-- One part of a `generateContent` payload: either the text prompt or an
inline image `{ mimeType, data }`. -/
inductive GenPart
  | text (t : String)
  | inlineData (mimeType : String) (data : String)
deriving DecidableEq

/-- Request dispatched by `generateImage`: the parts list plus the
`imageConfig` fields.  The source names the last field `aspectRatio`;
it is called `aspect` here. -/
structure GenRequest where
  parts : List GenPart
  imageSize : String
  aspect : String
deriving DecidableEq

/-- Accepted aspect subset (`validRatios` in `generateImage`). -/
def validRatios : List String := ["1:1", "3:4", "4:3", "9:16", "16:9", "21:9"]

/-- Clamp of `generateImage`:
`validRatios.includes(aspectRatio) ? aspectRatio : "1:1"`. -/
def sanitizeAspect (a : String) : String :=
  if validRatios.contains a then a else "1:1"

/-- Characters that the JavaScript regex metacharacter dot does not match
(no `s` flag): line terminators. -/
def jsDotExcluded (c : Char) : Bool :=
  c = '\n' || c = '\r' || c = '\u2028' || c = '\u2029'

/-- The literal `;base64,` that separates the two capture groups of the
data-URL regex. -/
def sepMarker : List Char := [';', 'b', 'a', 's', 'e', '6', '4', ',']

/-- The literal `data:` head of the data-URL regex. -/
def dataUrlHead : List Char := ['d', 'a', 't', 'a', ':']

/-- All decompositions `rest = m ++ ";base64," ++ p` of a character list,
listed with `m` of increasing length (leftmost separator occurrence first). -/
def splitCandidates : List Char → List (List Char × List Char)
  | [] => []
  | c :: cs =>
      let shifted := (splitCandidates cs).map (fun q => (c :: q.1, q.2))
      if (c :: cs).take 8 = sepMarker then ([], (c :: cs).drop 8) :: shifted
      else shifted

/-- The regex test shared by `generateImage` and `editImage`:
`imgData.match(re)` for the anchored pattern `data:(.+);base64,(.+)` with
greedy groups, where dot excludes line terminators.  Returns the matched
`(mimeType, payload)` pair: both groups non-empty, the first group as long
as possible (the regex engine backtracks from the longest prefix). -/
def matchDataUrl (s : String) : Option (String × String) :=
  let cs := s.toList
  if cs.take 5 = dataUrlHead ∧ (cs.drop 5).all (fun c => !jsDotExcluded c) then
    (((splitCandidates (cs.drop 5)).reverse).find?
        (fun q => !q.1.isEmpty && !q.2.isEmpty)).map
      (fun q => (String.mk q.1, String.mk q.2))
  else none

/-- Request construction of `generateImage`: the text part first, then at
most two reference images (`referenceImages.slice(0, 2)`), keeping only
those matching the data-URL regex; the aspect is clamped by
`sanitizeAspect` and the resolution passed through as `imageSize`. -/
def buildGenerateRequest (prompt : String) (referenceImages : List String)
    (resolution : String) (aspectChoice : String) : GenRequest :=
  let imagesToProcess := referenceImages.take 2
  let imageParts := imagesToProcess.filterMap
    (fun d => (matchDataUrl d).map (fun q => GenPart.inlineData q.1 q.2))
  { parts := GenPart.text prompt :: imageParts,
    imageSize := resolution,
    aspect := sanitizeAspect aspectChoice }

/-- Synchronous outcome of `editImage` up to its dispatch point: either the
request payload handed to `generateContent`, or the thrown error message. -/
inductive EditStep
  | dispatch (model : String) (parts : List GenPart)
  | throwErr (msg : String)
deriving DecidableEq

/-- Substring test `errorMessage.includes('\x7b') || errorMessage.includes('[')`
guarding the JSON error-extraction branch of the catch handlers (a
single-character needle, so substring search is character membership). -/
def hasJsonHint (m : String) : Bool :=
  m.toList.contains '\x7b' || m.toList.contains '['

/-- Prefix of `editImage` before its await point: the source image must
match the data-URL regex; otherwise `Error("Invalid image data format")` is
thrown before any request is dispatched.  The catch handler re-throws that
message unchanged: it contains neither a brace nor a bracket, so the JSON
extraction branch guarded by `hasJsonHint` is not entered. -/
def editImagePre (prompt inputImageBase64 : String) : EditStep :=
  match matchDataUrl inputImageBase64 with
  | some q =>
      .dispatch "gemini-2.5-flash-image"
        [GenPart.text prompt, GenPart.inlineData q.1 q.2]
  | none => .throwErr "Invalid image data format"

/-- Relation between the boolean clamp test and the accepted set written
out as equalities. -/
theorem sanitizeAspect_eq (a : String) :
    sanitizeAspect a
      = if a = "1:1" ∨ a = "3:4" ∨ a = "4:3" ∨ a = "9:16" ∨ a = "16:9" ∨ a = "21:9"
        then a else "1:1" := by
  unfold sanitizeAspect
  by_cases hd : a = "1:1" ∨ a = "3:4" ∨ a = "4:3" ∨ a = "9:16" ∨ a = "16:9" ∨ a = "21:9"
  · rw [if_pos hd, if_pos]
    rcases hd with h | h | h | h | h | h <;> simp [validRatios, h]
  · rw [if_neg hd, if_neg]
    intro hc
    exact hd (by simpa [validRatios] using hc)

/-- Claim C5: the aspect ratio dispatched by `generateImage` equals the
requested one when it lies in the accepted subset and `"1:1"` otherwise;
in particular `"4:5"` dispatches `"1:1"` and `"16:9"` dispatches unchanged. -/
theorem aspect_clamp_dispatch :
    (∀ (p : String) (refs : List String) (res a : String),
        (buildGenerateRequest p refs res a).aspect
          = if a = "1:1" ∨ a = "3:4" ∨ a = "4:3" ∨ a = "9:16" ∨ a = "16:9" ∨ a = "21:9"
            then a else "1:1")
    ∧ (∀ (p : String) (refs : List String) (res : String),
        (buildGenerateRequest p refs res "4:5").aspect = "1:1"
        ∧ (buildGenerateRequest p refs res "16:9").aspect = "16:9") := by
  constructor
  · intro p refs res a
    simpa [buildGenerateRequest] using sanitizeAspect_eq a
  · intro p refs res
    constructor <;> rfl

/-- Claim C9: when the source image does not match the data-URL shape,
`editImage` throws `"Invalid image data format"` without dispatching a
request, and that message cannot enter the JSON-extraction branch of the
catch handler. -/
theorem editImage_invalid_format :
    ∀ (prompt img : String), matchDataUrl img = none →
      editImagePre prompt img = EditStep.throwErr "Invalid image data format"
      ∧ hasJsonHint "Invalid image data format" = false := by
  intro p img h
  refine ⟨?_, by decide⟩
  simp [editImagePre, h]

/-- Witness for C9 at a concrete non-data-URL input. -/
theorem editImage_invalid_format_witness :
    editImagePre "make it blue" "notadataurl"
      = EditStep.throwErr "Invalid image data format" :=
  (editImage_invalid_format "make it blue" "notadataurl" (by decide)).1

/-! ## Main studio controller (`TextGenerator`) -/

/-- Transient state of the main studio controller: one field per `useState`
hook of `TextGenerator`, in source order.  The source names the aspect
field `aspectRatio`; it is called `aspect` here.  Resolution and aspect are
the runtime string values of the corresponding TypeScript union types. -/
structure StudioState where
  prompt : String
  image : Option GeneratedImage
  previewImage : Option GeneratedImage
  history : List GeneratedImage
  isHistoryLoaded : Bool
  uploadedImages : List UploadedImage
  resolution : String
  aspect : String
  loading : Bool
  error : Option String
  isEditSidebarOpen : Bool
  editingImage : Option GeneratedImage
  editPrompt : String
  isEditing : Bool
  showClearDialog : Bool
  showDeleteDialog : Bool
  imageToDelete : Option GeneratedImage
  showToast : Bool
  showGenSuccessToast : Bool
  showEditSuccessToast : Bool
  showWarningToast : Bool
  warningMsg : String
  showErrorToast : Bool
deriving DecidableEq

/-- Initial values of the `useState` hooks of `TextGenerator`. -/
def initialStudioState : StudioState where
  prompt := ""
  image := none
  previewImage := none
  history := []
  isHistoryLoaded := false
  uploadedImages := []
  resolution := "1K"
  aspect := "1:1"
  loading := false
  error := none
  isEditSidebarOpen := false
  editingImage := none
  editPrompt := ""
  isEditing := false
  showClearDialog := false
  showDeleteDialog := false
  imageToDelete := none
  showToast := false
  showGenSuccessToast := false
  showEditSuccessToast := false
  showWarningToast := false
  warningMsg := ""
  showErrorToast := false

/-- History append used by both `handleGenerate` and `executeEdit`:
`[newImage, ...prev].slice(0, 10)`. -/
def appendHistory (img : GeneratedImage) (prev : List GeneratedImage) :
    List GeneratedImage :=
  (img :: prev).take 10

/-- `confirmDelete` applied to a present target:
`prev.filter(item => item.timestamp !== imageToDelete.timestamp)`. -/
def confirmDeleteFromHistory (tgt : GeneratedImage)
    (prev : List GeneratedImage) : List GeneratedImage :=
  prev.filter (fun item => item.timestamp != tgt.timestamp)

/-- Synchronous prefix of `handleGenerate`, up to its await point: the
empty-trimmed-prompt guard, then `setLoading(true)`, `setError(null)`,
`setShowErrorToast(false)` and the call to `generateImage` with the staged
image urls, reified as the emitted request. -/
def handleGenerateStart (s : StudioState) : StudioState × Option GenRequest :=
  if s.prompt.trim = "" then (s, none)
  else
    ({ s with loading := true, error := none, showErrorToast := false },
     some (buildGenerateRequest s.prompt (s.uploadedImages.map (fun i => i.url))
             s.resolution s.aspect))

/-- Success continuation of `handleGenerate`: builds the new
`GeneratedImage` from the current prompt and time, replaces the result
pointer, prepends to the bounded history, raises the success toast, and
clears the loading flag in the `finally` block. -/
def handleGenerateSuccess (s : StudioState) (url : String) (now : Nat) :
    StudioState :=
  let newImage : GeneratedImage := { url := url, prompt := s.prompt, timestamp := now }
  { s with image := some newImage,
           history := appendHistory newImage s.history,
           showGenSuccessToast := true,
           loading := false }

/-- The generate trigger of the main flow: the `RainbowButton` carries
`disabled := !prompt.trim() || loading` (and is also disabled while
`isLoading`), and a disabled button delivers no click, so `handleGenerate`
runs only when the trimmed prompt is non-empty and `loading` is unset. -/
def generateTriggerClick (s : StudioState) : StudioState × Option GenRequest :=
  if s.prompt.trim ≠ "" ∧ s.loading = false then handleGenerateStart s
  else (s, none)

/-- The Ctrl+Enter / Cmd+Enter shortcut: with the edit sidebar closed it
calls `handleGenerate` only under `prompt.trim() && !loading`; with the
sidebar open it targets `executeEdit` instead, so no generate request is
emitted on that branch either. -/
def generateShortcut (s : StudioState) : StudioState × Option GenRequest :=
  if s.isEditSidebarOpen = false ∧ s.prompt.trim ≠ "" ∧ s.loading = false then
    handleGenerateStart s
  else (s, none)

/-- `attemptCloseSidebar`: while `isEditing` the close is deflected into a
warning toast (the warning text key `waitEditCompletion` is absent from
both translation tables, so `t` falls back to the key itself); otherwise
the sidebar is closed. -/
def attemptCloseSidebar (s : StudioState) : StudioState :=
  if s.isEditing then
    { s with warningMsg := "waitEditCompletion", showWarningToast := true }
  else
    { s with isEditSidebarOpen := false }

/-- Claim C1: while a generate call is pending (`loading` set), invoking the
generate operation through either trigger is a no-op — the state is
unchanged and no request is dispatched; moreover any trigger invocation
that does dispatch a request leaves the loading flag set, so the guard
covers every pair of invocations where the second starts while the first
is in flight. -/
theorem generate_single_flight :
    ∀ s : StudioState, s.loading = true →
      generateTriggerClick s = (s, none)
      ∧ generateShortcut s = (s, none)
      ∧ (∀ s0 : StudioState, (generateTriggerClick s0).2.isSome = true →
           (generateTriggerClick s0).1.loading = true) := by
  intro s h
  refine ⟨?_, ?_, ?_⟩
  · simp [generateTriggerClick, h]
  · simp [generateShortcut, h]
  · intro s0 hs
    by_cases hg : s0.prompt.trim ≠ "" ∧ s0.loading = false
    · have hp : s0.prompt.trim ≠ "" := hg.1
      simp [generateTriggerClick, hg, handleGenerateStart, hp]
    · simp [generateTriggerClick, hg] at hs

/-- Witness for C1 at a concrete loading state. -/
theorem generate_single_flight_witness :
    generateTriggerClick { initialStudioState with prompt := "a red fox", loading := true }
      = ({ initialStudioState with prompt := "a red fox", loading := true }, none) :=
  (generate_single_flight
    { initialStudioState with prompt := "a red fox", loading := true } rfl).1

/-- Counterexample to claim C2 as stated: a successful generate that
started with one staged reference image leaves the staging list non-empty
(the success path of `handleGenerate` never writes `uploadedImages`). -/
theorem generate_success_staging_counterexample :
    (handleGenerateSuccess
        { initialStudioState with
            prompt := "a red fox",
            uploadedImages := [{ url := "data:image/png;base64,AA", size := "1 KB" }],
            loading := true }
        "data:image/png;base64,BB" 1000).uploadedImages ≠ [] := by
  decide

/-- Claim C2 (amended): after every successful generate operation the
staging list is left unchanged — it is not cleared — for every starting
staging list of length 0, 1 or 2. -/
theorem generate_success_staging_unchanged :
    ∀ (s : StudioState) (url : String) (now : Nat),
      s.uploadedImages.length ≤ 2 →
      (handleGenerateSuccess s url now).uploadedImages = s.uploadedImages := by
  intro s url now _
  rfl

/-- Witness for the amended C2 at a concrete one-element staging list. -/
theorem generate_success_staging_unchanged_witness :
    (handleGenerateSuccess
        { initialStudioState with
            uploadedImages := [{ url := "data:image/png;base64,AA", size := "1 KB" }] }
        "data:image/png;base64,BB" 1000).uploadedImages
      = [{ url := "data:image/png;base64,AA", size := "1 KB" }] :=
  generate_success_staging_unchanged
    { initialStudioState with
        uploadedImages := [{ url := "data:image/png;base64,AA", size := "1 KB" }] }
    "data:image/png;base64,BB" 1000 (by decide)

/-- Claim C6: `attemptCloseSidebar` never closes the sidebar while
`isEditing` is set — the open flag is untouched and a warning toast is
raised — and closes it immediately when `isEditing` is unset. -/
theorem edit_close_guard :
    ∀ s : StudioState,
      (s.isEditing = true →
        (attemptCloseSidebar s).isEditSidebarOpen = s.isEditSidebarOpen
        ∧ (attemptCloseSidebar s).showWarningToast = true)
      ∧ (s.isEditing = false →
        (attemptCloseSidebar s).isEditSidebarOpen = false) := by
  intro s
  constructor <;> intro h <;> simp [attemptCloseSidebar, h]

/-- Witness for C6: an editing session refuses to close, an idle one closes. -/
theorem edit_close_guard_witness :
    (attemptCloseSidebar
        { initialStudioState with isEditSidebarOpen := true, isEditing := true }
      ).isEditSidebarOpen = true
    ∧ (attemptCloseSidebar
        { initialStudioState with isEditSidebarOpen := true }
      ).isEditSidebarOpen = false :=
  ⟨((edit_close_guard
      { initialStudioState with isEditSidebarOpen := true, isEditing := true }).1 rfl).1,
   (edit_close_guard
      { initialStudioState with isEditSidebarOpen := true }).2 rfl⟩

/-- Claim C10: confirmed single deletion removes exactly the entries whose
timestamp equals the target's — every such entry is gone, every entry with
another timestamp survives, and the survivors keep their relative order
(the result is a sublist of the input). -/
theorem delete_by_timestamp :
    ∀ (tgt : GeneratedImage) (h : List GeneratedImage),
      List.Sublist (confirmDeleteFromHistory tgt h) h
      ∧ (∀ e ∈ h, e.timestamp = tgt.timestamp →
          e ∉ confirmDeleteFromHistory tgt h)
      ∧ (∀ e ∈ h, e.timestamp ≠ tgt.timestamp →
          e ∈ confirmDeleteFromHistory tgt h) := by
  intro tgt h
  refine ⟨List.filter_sublist h, ?_, ?_⟩
  · intro e _ he hmem
    have := (List.mem_filter.mp hmem).2
    simp [he] at this
  · intro e hmem hne
    exact List.mem_filter.mpr ⟨hmem, by simpa using hne⟩

/-- Witness for C10: two records created in the same millisecond are both
removed by one delete. -/
theorem delete_by_timestamp_witness :
    ({ url := "u2", prompt := "p2", timestamp := 5 } : GeneratedImage)
      ∉ confirmDeleteFromHistory
          { url := "u1", prompt := "p1", timestamp := 5 }
          [{ url := "u1", prompt := "p1", timestamp := 5 },
           { url := "u2", prompt := "p2", timestamp := 5 }] :=
  (delete_by_timestamp
      { url := "u1", prompt := "p1", timestamp := 5 }
      [{ url := "u1", prompt := "p1", timestamp := 5 },
       { url := "u2", prompt := "p2", timestamp := 5 }]).2.1
    { url := "u2", prompt := "p2", timestamp := 5 } (by decide) rfl

/-! ## Bounded history (claim C3) -/

/-- Taking 10 of an append absorbs an inner take 10. -/
theorem take_append_take_ten {α : Type} (xs l : List α) :
    (xs ++ l.take 10).take 10 = (xs ++ l).take 10 := by
  rw [List.take_append_eq_append_take, List.take_append_eq_append_take,
      List.take_take]
  congr 2
  exact Nat.min_eq_left (Nat.sub_le 10 xs.length)

/-- A sequence of bounded appends equals the take of the reversed batch in
front of the start list. -/
theorem foldl_appendHistory (imgs : List GeneratedImage)
    (h : List GeneratedImage) (hb : h.length ≤ 10) :
    imgs.foldl (fun acc i => appendHistory i acc) h
      = (imgs.reverse ++ h).take 10 := by
  induction imgs generalizing h with
  | nil => simp [List.take_of_length_le hb]
  | cons a tl ih =>
      have hlen : (appendHistory a h).length ≤ 10 := by
        simp [appendHistory]
      calc (a :: tl).foldl (fun acc i => appendHistory i acc) h
          = tl.foldl (fun acc i => appendHistory i acc) (appendHistory a h) := rfl
        _ = (tl.reverse ++ (a :: h).take 10).take 10 := ih (appendHistory a h) hlen
        _ = (tl.reverse ++ (a :: h)).take 10 := take_append_take_ten _ _
        _ = ((a :: tl).reverse ++ h).take 10 := by simp

/-- Claim C3: starting from any history of length at most 10, a sequence of
more than 10 generate/edit successes leaves exactly the 10 most recent
results, newest first; and each single mutation — append, confirmed delete,
clear — preserves the invariant `length ≤ 10`. -/
theorem history_bounded :
    ∀ (imgs : List GeneratedImage) (h : List GeneratedImage),
      h.length ≤ 10 → 10 < imgs.length →
      (imgs.foldl (fun acc i => appendHistory i acc) h).length = 10
      ∧ imgs.foldl (fun acc i => appendHistory i acc) h = imgs.reverse.take 10
      ∧ (∀ (i : GeneratedImage) (h2 : List GeneratedImage),
          (appendHistory i h2).length ≤ 10)
      ∧ (∀ (tgt : GeneratedImage) (h2 : List GeneratedImage),
          h2.length ≤ 10 → (confirmDeleteFromHistory tgt h2).length ≤ 10)
      ∧ ([] : List GeneratedImage).length ≤ 10 := by
  intro imgs h hb hn
  have hrev : 10 ≤ imgs.reverse.length := by
    rw [List.length_reverse]; omega
  have hfold : imgs.foldl (fun acc i => appendHistory i acc) h
      = imgs.reverse.take 10 := by
    rw [foldl_appendHistory imgs h hb, List.take_append_of_le_length hrev]
  refine ⟨?_, hfold, ?_, ?_, by simp⟩
  · rw [hfold, List.length_take]
    exact Nat.min_eq_left hrev
  · intro i h2
    simp [appendHistory]
  · intro tgt h2 hb2
    exact le_trans (List.length_filter_le _ h2) hb2

/-- Witness for C3: 11 appends onto an empty history keep exactly the last
10, newest first. -/
theorem history_bounded_witness :
    ((List.range 11).map
        (fun k => ({ url := "u", prompt := "p", timestamp := k } : GeneratedImage))
      ).foldl (fun acc i => appendHistory i acc) [] =
      ((List.range 11).map
        (fun k => ({ url := "u", prompt := "p", timestamp := k } : GeneratedImage))
      ).reverse.take 10 :=
  (history_bounded
    ((List.range 11).map
      (fun k => ({ url := "u", prompt := "p", timestamp := k } : GeneratedImage)))
    [] (by decide) (by decide)).2.1

/-! ## Persistence ordering (claim C7) -/

/-- The part of the controller state that the history-persistence effect
observes: the `history` list and the `isHistoryLoaded` flag. -/
structure HistPersistState where
  history : List GeneratedImage
  isHistoryLoaded : Bool
deriving DecidableEq

/-- Mount-time values: empty history, load not yet completed. -/
def initHistPersistState : HistPersistState :=
  { history := [], isHistoryLoaded := false }

/-- Events that touch the in-memory history: completion of the initial
`getHistoryFromDB` load (which installs at most 10 saved items when
non-empty and sets `isHistoryLoaded`), the two success appends, confirmed
single delete, and confirmed clear-all. -/
inductive HistEvent
  | loadDone (saved : List GeneratedImage)
  | genSuccess (img : GeneratedImage)
  | editSuccess (img : GeneratedImage)
  | deleteConfirmed (tgt : GeneratedImage)
  | clearConfirmed
deriving DecidableEq

/-- Discriminator for the load-completion event. -/
def HistEvent.isLoad : HistEvent → Bool
  | .loadDone _ => true
  | _ => false

/-- State transition of one history event, from the corresponding
`setHistory` / `setIsHistoryLoaded` calls in the source. -/
def applyHistEvent (s : HistPersistState) (e : HistEvent) : HistPersistState :=
  match e with
  | .loadDone saved =>
      { history := if 0 < saved.length then saved.take 10 else s.history,
        isHistoryLoaded := true }
  | .genSuccess img => { s with history := appendHistory img s.history }
  | .editSuccess img => { s with history := appendHistory img s.history }
  | .deleteConfirmed tgt =>
      { s with history := confirmDeleteFromHistory tgt s.history }
  | .clearConfirmed => { s with history := [] }

/-- The save subscription
`useEffect(() => { if (isHistoryLoaded) saveHistoryToDB(history) }, [history, isHistoryLoaded])`:
after a state change it writes the whole history iff the load has completed. -/
def saveEffectWrites (s : HistPersistState) : List (List GeneratedImage) :=
  if s.isHistoryLoaded then [s.history] else []

/-- Run of a sequence of history events from a state, collecting the
persistence writes issued by the save subscription after each event. -/
def runHistEvents : HistPersistState → List HistEvent →
    HistPersistState × List (List GeneratedImage)
  | s, [] => (s, [])
  | s, e :: es =>
      let s2 := applyHistEvent s e
      let r := runHistEvents s2 es
      (r.1, saveEffectWrites s2 ++ r.2)

/-- Only the load-completion event sets the loaded flag. -/
theorem applyHistEvent_not_load (s : HistPersistState) (e : HistEvent)
    (he : e.isLoad = false) :
    (applyHistEvent s e).isHistoryLoaded = s.isHistoryLoaded := by
  cases e with
  | loadDone saved => simp [HistEvent.isLoad] at he
  | genSuccess img => rfl
  | editSuccess img => rfl
  | deleteConfirmed tgt => rfl
  | clearConfirmed => rfl

/-- Every event preserves a set loaded flag. -/
theorem applyHistEvent_loaded_mono (s : HistPersistState) (e : HistEvent)
    (hs : s.isHistoryLoaded = true) :
    (applyHistEvent s e).isHistoryLoaded = true := by
  cases e <;> simp [applyHistEvent, hs]

/-- Before the load completes, no event emits a write. -/
theorem runHistEvents_no_load_no_writes (es : List HistEvent) :
    ∀ s : HistPersistState, s.isHistoryLoaded = false →
      (∀ e ∈ es, e.isLoad = false) →
      (runHistEvents s es).2 = [] := by
  induction es with
  | nil => intro s _ _; rfl
  | cons e tl ih =>
      intro s hs hall
      have he : e.isLoad = false := hall e (List.mem_cons_self e tl)
      have hs2 : (applyHistEvent s e).isHistoryLoaded = false := by
        rw [applyHistEvent_not_load s e he]; exact hs
      have htl : (runHistEvents (applyHistEvent s e) tl).2 = [] :=
        ih (applyHistEvent s e) hs2
          (fun x hx => hall x (List.mem_cons_of_mem e hx))
      simp [runHistEvents, saveEffectWrites, hs2, htl]

/-- Claim C7: no persistence write is issued before the initial load from
the durable store has completed, and once the load has completed every
history mutation is followed by a write of the new in-memory list. -/
theorem persist_after_load_only :
    (∀ es : List HistEvent, (∀ e ∈ es, e.isLoad = false) →
        (runHistEvents initHistPersistState es).2 = [])
    ∧ (∀ (s : HistPersistState) (e : HistEvent), s.isHistoryLoaded = true →
        (runHistEvents s [e]).2 = [(applyHistEvent s e).history]) := by
  constructor
  · intro es hall
    exact runHistEvents_no_load_no_writes es initHistPersistState rfl hall
  · intro s e hs
    have h2 : (applyHistEvent s e).isHistoryLoaded = true :=
      applyHistEvent_loaded_mono s e hs
    simp [runHistEvents, saveEffectWrites, h2]

/-- Witness for C7: a generate success before the load completes writes
nothing; a clear after the load completes writes the emptied list. -/
theorem persist_after_load_only_witness :
    (runHistEvents initHistPersistState
        [HistEvent.genSuccess { url := "u", prompt := "p", timestamp := 0 }]).2 = []
    ∧ (runHistEvents { history := [], isHistoryLoaded := true }
        [HistEvent.clearConfirmed]).2 = [[]] :=
  ⟨persist_after_load_only.1
      [HistEvent.genSuccess { url := "u", prompt := "p", timestamp := 0 }]
      (by intro e he; simp at he; simp [he, HistEvent.isLoad]),
   persist_after_load_only.2 { history := [], isHistoryLoaded := true }
      HistEvent.clearConfirmed rfl⟩

/-! ## Node-graph pipeline evaluator (`WorkflowEditor`) -/

/-- Per-kind node payload of the workflow graph.  The source keeps these as
untyped `data` objects; the constructors below carry the fields each node
kind actually holds (`prompt`, `images`, the generator configuration with
its transient `loading`/`error`/`outputImage` state, the output slot with
the settings saved for the refine step, and the refine state). -/
inductive FlowNodeData
  | promptD (prompt : String)
  | imageD (images : List String)
  | generatorD (loading : Bool) (resolution : String) (aspectChoice : String)
      (error : Option String) (outputImage : Option String)
  | outputD (image : Option String) (resolution : Option String)
      (aspectChoice : Option String)
  | refineD (prompt : String) (loading : Bool) (error : Option String)
      (outputImage : Option String)
deriving DecidableEq

/-- A workflow node: its id, its `type` discriminator string (as used by
`n.type === '...'` checks in the source), and its data. -/
structure FlowNode where
  id : String
  ntype : String
  data : FlowNodeData
deriving DecidableEq

/-- A workflow edge; ids and styling are dropped, the source/target node
ids and handles are kept. -/
structure FlowEdge where
  source : String
  target : String
  sourceHandle : Option String
  targetHandle : Option String
deriving DecidableEq

/-- Read `data.prompt` as a string where the source reads it off a prompt
node; on any other payload the property is absent (undefined, falsy),
modelled as the empty string, which the `!prompt` check treats the same. -/
def promptTextOf : FlowNodeData → String
  | .promptD p => p
  | _ => ""

/-- Read `data.images` off an image node; absent on other payloads. -/
def imagesOf : FlowNodeData → List String
  | .imageD l => l
  | _ => []

/-- Read `data.resolution` off a generator node; on other payloads the
property is absent and `generateImage` falls back to its default `'1K'`. -/
def resolutionOf : FlowNodeData → String
  | .generatorD _ r _ _ _ => r
  | _ => "1K"

/-- Read `data.aspectRatio` off a generator node; on other payloads the
property is absent and `generateImage` falls back to its default `'1:1'`. -/
def aspectOf : FlowNodeData → String
  | .generatorD _ _ a _ _ => a
  | _ => "1:1"

/-- The `updateNodeData(id, { error: msg })` merge: set the error slot of a
generator or refine payload (the only node kinds carrying one). -/
def withError (msg : Option String) : FlowNodeData → FlowNodeData
  | .generatorD l r a _ o => .generatorD l r a msg o
  | .refineD p l _ o => .refineD p l msg o
  | d => d

/-- The `updateNodeData(id, { loading: true, error: null })` merge on a
generator payload. -/
def withRunning : FlowNodeData → FlowNodeData
  | .generatorD _ r a _ o => .generatorD true r a none o
  | d => d

/-- `updateNodeData`: map over the node list, merging new data into every
node with the given id. -/
def updateNodeData (nodes : List FlowNode) (id : String)
    (f : FlowNodeData → FlowNodeData) : List FlowNode :=
  nodes.map (fun n => if n.id = id then { n with data := f n.data } else n)

/-- Input resolution of `runGenerator`: fold over the edges targeting the
generator; a prompt-node source overwrites the prompt (last writer wins in
edge iteration order), an image-node source appends its held images, any
other (or missing) source is skipped. -/
def resolveGenInputs (nodes : List FlowNode) (edges : List FlowEdge)
    (genId : String) : String × List String :=
  (edges.filter (fun e => e.target == genId)).foldl
    (fun acc e =>
      match nodes.find? (fun n => n.id == e.source) with
      | none => acc
      | some sn =>
          if sn.ntype = "promptNode" then (promptTextOf sn.data, acc.2)
          else if sn.ntype = "imageNode" then (acc.1, acc.2 ++ imagesOf sn.data)
          else acc)
    ("", [])

/-- Outcome of the synchronous prefix of `runGenerator`, up to its await
point: no generator node found (early return), fail-fast on an empty
resolved prompt (node-local error, no request), or the dispatch of a
request built from the resolved prompt, the input images truncated to one,
and the generator's configuration. -/
inductive RunGenOutcome
  | noGenerator (nodes : List FlowNode)
  | promptError (nodes : List FlowNode)
  | dispatch (nodes : List FlowNode) (req : GenRequest)
deriving DecidableEq

/-- The request a `RunGenOutcome` hands to the generation client, if any. -/
def requestOf : RunGenOutcome → Option GenRequest
  | .dispatch _ r => some r
  | _ => none

/-- Synchronous prefix of `runGenerator`: find the first generator node,
resolve its inputs over the incoming edges, fail fast when no prompt text
was resolved, otherwise mark the node loading and emit the request. -/
def runGeneratorPre (nodes : List FlowNode) (edges : List FlowEdge) :
    RunGenOutcome :=
  match nodes.find? (fun n => n.ntype == "generatorNode") with
  | none => .noGenerator nodes
  | some gen =>
      let resolved := resolveGenInputs nodes edges gen.id
      if resolved.1 = "" then
        .promptError (updateNodeData nodes gen.id (withError (some "No prompt provided")))
      else
        .dispatch (updateNodeData nodes gen.id withRunning)
          (buildGenerateRequest resolved.1 (resolved.2.take 1)
            (resolutionOf gen.data) (aspectOf gen.data))

/-- Claim C8: when resolving the generator's incoming edges yields no
prompt text, `runGenerator` records the node-local error
`"No prompt provided"` on the generator, makes no call to the generation
client, and leaves every other node unchanged. -/
theorem runGenerator_no_prompt_no_dispatch :
    ∀ (nodes : List FlowNode) (edges : List FlowEdge) (gen : FlowNode),
      nodes.find? (fun n => n.ntype == "generatorNode") = some gen →
      (resolveGenInputs nodes edges gen.id).1 = "" →
      runGeneratorPre nodes edges
          = RunGenOutcome.promptError
              (updateNodeData nodes gen.id (withError (some "No prompt provided")))
      ∧ requestOf (runGeneratorPre nodes edges) = none
      ∧ (updateNodeData nodes gen.id (withError (some "No prompt provided"))).length
          = nodes.length
      ∧ (∀ n ∈ nodes, n.id ≠ gen.id →
          n ∈ updateNodeData nodes gen.id (withError (some "No prompt provided")))
      ∧ { gen with data := withError (some "No prompt provided") gen.data }
          ∈ updateNodeData nodes gen.id (withError (some "No prompt provided"))
      ∧ (∀ (l : Bool) (r a : String) (er o : Option String),
          withError (some "No prompt provided") (FlowNodeData.generatorD l r a er o)
            = FlowNodeData.generatorD l r a (some "No prompt provided") o) := by
  intro nodes edges gen hfind hp
  have hout : runGeneratorPre nodes edges
      = RunGenOutcome.promptError
          (updateNodeData nodes gen.id (withError (some "No prompt provided"))) := by
    unfold runGeneratorPre
    rw [hfind]
    simp [hp]
  refine ⟨hout, by rw [hout]; rfl, by simp [updateNodeData], ?_, ?_, ?_⟩
  · intro n hn hne
    have hmem := List.mem_map_of_mem
      (fun n : FlowNode =>
        if n.id = gen.id then
          { n with data := withError (some "No prompt provided") n.data }
        else n) hn
    simpa [updateNodeData, hne] using hmem
  · have hgen : gen ∈ nodes := List.mem_of_find?_eq_some hfind
    have hmem := List.mem_map_of_mem
      (fun n : FlowNode =>
        if n.id = gen.id then
          { n with data := withError (some "No prompt provided") n.data }
        else n) hgen
    simpa [updateNodeData] using hmem
  · intro l r a er o
    rfl

/-- The initial workflow graph of the source (`useNodesState` /
`useEdgesState` initial values), with the prompt node still empty. -/
def initialFlowNodes : List FlowNode :=
  [{ id := "1", ntype := "promptNode", data := .promptD "" },
   { id := "img-1", ntype := "imageNode", data := .imageD [] },
   { id := "2", ntype := "generatorNode",
     data := .generatorD false "1K" "1:1" none none },
   { id := "3", ntype := "outputNode", data := .outputD none none none }]

/-- The initial workflow edges of the source. -/
def initialFlowEdges : List FlowEdge :=
  [{ source := "1", target := "2", sourceHandle := none,
     targetHandle := some "prompt-in" },
   { source := "img-1", target := "2", sourceHandle := none,
     targetHandle := some "image-in" },
   { source := "2", target := "3", sourceHandle := some "gen-out-main",
     targetHandle := some "in" }]

/-- Witness for C8: running the initial graph, whose prompt node is still
empty, fails fast with the node-local error and no request. -/
theorem runGenerator_no_prompt_no_dispatch_witness :
    runGeneratorPre initialFlowNodes initialFlowEdges
        = RunGenOutcome.promptError
            (updateNodeData initialFlowNodes "2"
              (withError (some "No prompt provided")))
    ∧ requestOf (runGeneratorPre initialFlowNodes initialFlowEdges) = none :=
  have h := runGenerator_no_prompt_no_dispatch initialFlowNodes initialFlowEdges
    { id := "2", ntype := "generatorNode",
      data := .generatorD false "1K" "1:1" none none }
    (by decide) (by decide)
  ⟨h.1, h.2.1⟩

end NanoBanana
